import Mathlib

/-!
Verification of the PTU/RI alert function app (`src/function-app/function_app.py`).

The Python source is a single Azure Function `ptu_ri_alert_function` plus a
helper `check_ptu_capacity`.  We embed its data model and control flow
shallowly: Azure SDK records become structures with `Option` fields (a Python
`None` is `none`), Python exceptions become an explicit `Except` layer, and
the lazy enumerations returned by the SDK clients become lists whose elements
are either a yielded record or a raised exception.
-/

/-- Substring containment on character lists: `occursIn p s` holds when `p`
appears as a contiguous run inside `s`.  Mirrors Python's `in` on strings. -/
def occursIn (p : List Char) : List Char → Bool
  | [] => p.isEmpty
  | c :: rest => p.isPrefixOf (c :: rest) || occursIn p rest

/-- Python `pat in s` for strings. -/
def strContains (s pat : String) : Bool :=
  occursIn pat.toList s.toList

/-- Python's `str.lower()` (the sku names involved are ASCII). -/
def pyLower (s : String) : List Char :=
  s.toList.map Char.toLower

/-- Python's `str.split(sep)` for a single-character separator, on character
lists: `''.split('/') = ['']`, separators at the ends produce empty pieces. -/
def pySplit (sep : Char) : List Char → List (List Char)
  | [] => [[]]
  | c :: rest =>
    if c = sep then [] :: pySplit sep rest
    else
      match pySplit sep rest with
      | [] => [[c]]
      | h :: t => (c :: h) :: t

/-- `subject.split('/')` (line 43). -/
def pySplitStr (s : String) (sep : Char) : List String :=
  (pySplit sep s.toList).map List.asString

/-- Exceptions that the Python code can raise, by raising site. -/
inductive Exn where
  | credError      -- `DefaultAzureCredential()` failed
  | depEnumError   -- `cog_client.deployments.list(...)` iteration failed
  | indexError     -- list index out of range in subject parsing
  deriving DecidableEq, Repr

/-- `dep.sku` in the Python source: `name` and `capacity` may be absent. -/
structure Sku where
  name : Option String
  capacity : Option Int
  deriving DecidableEq, Repr

/-- A deployment record as read by `cog_client.deployments.list`. -/
structure Deployment where
  name : String
  sku : Option Sku
  deriving DecidableEq, Repr

/-- A reservation record as read by `reservation_client.reservation.list`. -/
structure Reservation where
  name : Option String
  displayName : Option String
  skuDescription : Option String
  quantity : Option Int
  deriving DecidableEq, Repr

/-- One event of the lazy deployment enumeration: either a yielded record or
an exception raised mid-iteration. -/
inductive DepItem where
  | dep (d : Deployment)
  | err
  deriving DecidableEq, Repr

/-- One event of the lazy reservation enumeration (orders flattened):
either a yielded record or an exception raised mid-iteration. -/
inductive ResItem where
  | res (r : Reservation)
  | err
  deriving DecidableEq, Repr

/-- The sku filter in line 95 of the source:
`dep.sku and dep.sku.name and dep.sku.name.lower().startswith('provisioned')`.
Python truthiness makes an empty-string name fail the test. -/
def depMatches (d : Deployment) : Bool :=
  match d.sku with
  | none => false
  | some s =>
    match s.name with
    | none => false
    | some n => !n.toList.isEmpty && "provisioned".toList.isPrefixOf (pyLower n)

/-- `dep.sku.capacity or 0` (line 96): a missing capacity counts as `0`.
Only evaluated under `depMatches`, where `d.sku` is present. -/
def depCap (d : Deployment) : Int :=
  match d.sku with
  | none => 0
  | some s => s.capacity.getD 0

/-- The reservation filter in line 122 of the source:
`reservation.sku_description and 'Provisioned Throughput' in reservation.sku_description`. -/
def resMatches (r : Reservation) : Bool :=
  match r.skuDescription with
  | none => false
  | some d => !d.toList.isEmpty && strContains d "Provisioned Throughput"

/-- `reservation.quantity or 0` (line 123): a missing quantity counts as `0`. -/
def resQty (r : Reservation) : Int :=
  r.quantity.getD 0

/-- The deployment loop of `check_ptu_capacity` (lines 93-102): accumulates
`total_deployed_ptus` over sku-matching deployments and overwrites
`new_deployment_ptus` when a sku-matching deployment has the target name.
An exception in the enumeration propagates (it is only caught by the outer
boundary of `check_ptu_capacity`). -/
def runDepsAux (target : String) (tot newDep : Int) :
    List DepItem → Except Exn (Int × Int)
  | [] => .ok (tot, newDep)
  | .err :: _ => .error .depEnumError
  | .dep d :: rest =>
    if depMatches d then
      runDepsAux target (tot + depCap d)
        (if d.name == target then depCap d else newDep) rest
    else
      runDepsAux target tot newDep rest

/-- The reservation loop body (lines 119-125): accumulates
`total_reserved_ptus` over marker-matching reservations; an exception stops
the loop and the accumulator so far is kept (the inner `except` at line 127
catches it). -/
def runResAux (acc : Int) : List ResItem → Int
  | [] => acc
  | .err :: _ => acc
  | .res r :: rest =>
    if resMatches r then runResAux (acc + resQty r) rest
    else runResAux acc rest

/-- Step 2 of `check_ptu_capacity` (lines 112-129): the whole reservation
enumeration, including construction of `AzureReservationAPI`, sits inside its
own try/except, so a failure leaves the partial total (possibly `0`). -/
def runRes (clientFails : Bool) (items : List ResItem) : Int :=
  if clientFails then 0 else runResAux 0 items

/-- The three logged outcomes of the comparison step (lines 142-161). -/
inductive Outcome where
  | noReservations (deployedBilledHourly : Int)
  | fullyCovered (available : Int)
  | exceeds (excess : Int) (newDepFlagged : Bool)
  deriving DecidableEq, Repr

/-- Step 3 of `check_ptu_capacity` (lines 142-161): classify deployed vs
reserved totals.  In the exceeding branch, the extra warning about the new
deployment is emitted iff `new_deployment_ptus > 0` (line 159). -/
def classify (deployed reserved newDep : Int) : Outcome :=
  if reserved = 0 then .noReservations deployed
  else if deployed ≤ reserved then .fullyCovered (reserved - deployed)
  else .exceeds (deployed - reserved) (decide (0 < newDep))

/-- What one run of `check_ptu_capacity` computes before logging it. -/
structure Report where
  totalDeployed : Int
  totalReserved : Int
  newDeploymentPtus : Int
  outcome : Outcome
  deriving DecidableEq, Repr

/-- The external world one invocation of `check_ptu_capacity` observes:
whether credential acquisition throws, the deployment enumeration stream,
whether the reservation client construction throws, and the reservation
enumeration stream. -/
structure CheckInputs where
  credFails : Bool
  depItems : List DepItem
  resClientFails : Bool
  resItems : List ResItem
  deriving DecidableEq, Repr

/-- The body of `check_ptu_capacity` inside the outer `try` (lines 83-163):
obtain a credential, run the deployment loop (exceptions propagate), run the
reservation step (exceptions confined), classify. -/
def checkBody (inputs : CheckInputs) (deploymentName : String) :
    Except Exn Report :=
  if inputs.credFails then .error .credError
  else
    match runDepsAux deploymentName 0 0 inputs.depItems with
    | .error e => .error e
    | .ok (totalDep, newDep) =>
      let totalRes := runRes inputs.resClientFails inputs.resItems
      .ok { totalDeployed := totalDep
            totalReserved := totalRes
            newDeploymentPtus := newDep
            outcome := classify totalDep totalRes newDep }

/-- `check_ptu_capacity` (lines 74-167): the whole body is wrapped in
try/except (lines 82, 165), so an internal exception is logged and the
function returns normally with no report produced (`none`). -/
def check_ptu_capacity (inputs : CheckInputs) (deploymentName : String) :
    Except Exn (Option Report) :=
  match checkBody inputs deploymentName with
  | .ok r => .ok (some r)
  | .error _ => .ok none

/-- An Event Grid event as seen by the handler: `operationName` is read from
the JSON payload with default `'N/A'` (line 30). -/
structure Event where
  id : String
  eventType : String
  subject : String
  operationName : Option String
  deriving DecidableEq, Repr

/-- `event_data.get('operationName', 'N/A')` (line 30). -/
def opName (e : Event) : String :=
  e.operationName.getD "N/A"

/-- The deployment-event filter at line 37:
`'Microsoft.CognitiveServices/accounts' in event.subject and
 'deployments/write' in operation_name`. -/
def deploymentFilter (e : Event) : Bool :=
  strContains e.subject "Microsoft.CognitiveServices/accounts" &&
  strContains (opName e) "deployments/write"

/-- Subject parsing (lines 43-47): split on `/`; indices 2, 4 and 8 raise an
`IndexError` when absent, while index 10 is guarded by a length test and
defaults to `'unknown'`. -/
def parseSubject (subject : String) :
    Except Exn (String × String × String × String) :=
  let parts := pySplitStr subject '/'
  match parts[2]?, parts[4]?, parts[8]? with
  | some sub, some rg, some acct =>
    .ok (sub, rg, acct, parts[10]?.getD "unknown")
  | _, _, _ => .error .indexError

/-- The dictionary returned at lines 67-71. -/
structure HandlerResult where
  status : String
  event_id : String
  event_type : String
  deriving DecidableEq, Repr

/-- `{'status': 'success', 'event_id': ..., 'event_type': ...}`. -/
def successResult (e : Event) : HandlerResult :=
  { status := "success", event_id := e.id, event_type := e.eventType }

/-- Observable outcome of one handler invocation: the returned value, whether
`check_ptu_capacity` was called, whether the inner except branch logged an
error, and whether the skip message of line 61 was logged. -/
structure HandlerOutcome where
  result : HandlerResult
  invokedChecker : Bool
  errorLogged : Bool
  skippedLogged : Bool
  deriving DecidableEq, Repr

/-- `ptu_ri_alert_function` (lines 12-71): filter, then inside a `try` parse
the subject and call `check_ptu_capacity`; any exception from either is
caught at line 57 and logged; the success result is returned in all cases. -/
def ptu_ri_alert_function (e : Event) (inputs : CheckInputs) : HandlerOutcome :=
  if deploymentFilter e then
    match parseSubject e.subject with
    | .error _ =>
      { result := successResult e, invokedChecker := false,
        errorLogged := true, skippedLogged := false }
    | .ok (_, _, _, deploymentName) =>
      match check_ptu_capacity inputs deploymentName with
      | .ok _ =>
        { result := successResult e, invokedChecker := true,
          errorLogged := false, skippedLogged := false }
      | .error _ =>
        { result := successResult e, invokedChecker := true,
          errorLogged := true, skippedLogged := false }
  else
    { result := successResult e, invokedChecker := false,
      errorLogged := false, skippedLogged := true }

/-! ## Concrete fixtures used by witnesses and counterexamples -/

/-- A realistic deployment-write event: its `operationName` is the full
Azure operation string, which contains but does not equal
`'deployments/write'`. -/
def evFullOpName : Event :=
  { id := "evt-1"
    eventType := "Microsoft.Resources.ResourceWriteSuccess"
    subject := "/subscriptions/sub1/resourceGroups/rg1/providers/Microsoft.CognitiveServices/accounts/acct1/deployments/dep1"
    operationName := some "Microsoft.CognitiveServices/accounts/deployments/write" }

/-- An event passing the deployment filter whose subject splits into only
two segments. -/
def evShortSubject : Event :=
  { id := "evt-2"
    eventType := "Microsoft.Resources.ResourceWriteSuccess"
    subject := "Microsoft.CognitiveServices/accounts"
    operationName := some "deployments/write" }

/-- A deployment carrying the target name but a non-provisioned sku. -/
def depStandardTarget : Deployment :=
  { name := "gpt4", sku := some { name := some "Standard", capacity := some 7 } }

/-- The spec's worked example: capacities 10, 20 and 5, all provisioned
skus, the target deployment being the 20-capacity one. -/
def depListExample : List Deployment :=
  [ { name := "d1", sku := some { name := some "ProvisionedManaged", capacity := some 10 } }
  , { name := "d2", sku := some { name := some "provisioned", capacity := some 20 } }
  , { name := "d3", sku := some { name := some "Provisioned-Managed", capacity := some 5 } } ]

/-- A single provisioned deployment with capacity 3. -/
def depListSmall : List Deployment :=
  [ { name := "d1", sku := some { name := some "provisioned", capacity := some 3 } } ]

/-- A single PTU reservation of quantity 100. -/
def resListSmall : List Reservation :=
  [ { name := some "r1", displayName := none
    , skuDescription := some "Azure OpenAI Provisioned Throughput", quantity := some 100 } ]

/-- An inert world for the capacity checker: nothing fails, nothing listed. -/
def quietInputs : CheckInputs :=
  { credFails := false, depItems := [], resClientFails := false, resItems := [] }

/-! ## Helper lemmas about the loops -/

/-- Unfolding of one iteration of the deployment loop on a yielded record. -/
theorem runDepsAux_cons_dep (target : String) (tot nd : Int) (d : Deployment)
    (rest : List DepItem) :
    runDepsAux target tot nd (DepItem.dep d :: rest) =
      if depMatches d then
        runDepsAux target (tot + depCap d)
          (if d.name == target then depCap d else nd) rest
      else runDepsAux target tot nd rest := rfl

/-- On an error-free stream, the deployment loop returns and its running
total grows by the sum of the capacities of the sku-matching deployments. -/
theorem runDepsAux_pure_total (target : String) (ds : List Deployment)
    (tot nd : Int) :
    ∃ nd2, runDepsAux target tot nd (ds.map DepItem.dep) =
      .ok (tot + ((ds.filter depMatches).map depCap).sum, nd2) := by
  induction ds generalizing tot nd with
  | nil => exact ⟨nd, by simp [runDepsAux]⟩
  | cons d ds ih =>
    by_cases h : depMatches d
    · obtain ⟨nd2, h2⟩ :=
        ih (tot + depCap d) (if d.name == target then depCap d else nd)
      refine ⟨nd2, ?_⟩
      rw [List.map_cons, runDepsAux_cons_dep, if_pos h, h2]
      simp [List.filter_cons, h, add_assoc]
    · obtain ⟨nd2, h2⟩ := ih tot nd
      refine ⟨nd2, ?_⟩
      rw [List.map_cons, runDepsAux_cons_dep, if_neg (by simp [h]), h2]
      simp [List.filter_cons, h]

/-- On an error-free stream, the reservation loop adds the quantities of the
marker-matching reservations to its accumulator. -/
theorem runResAux_pure (rs : List Reservation) (acc : Int) :
    runResAux acc (rs.map ResItem.res) =
      acc + ((rs.filter resMatches).map resQty).sum := by
  induction rs generalizing acc with
  | nil => simp [runResAux]
  | cons r rs ih =>
    by_cases h : resMatches r
    · simp [runResAux, h, ih, add_assoc]
    · simp [runResAux, h, ih]

/-- An exception mid-enumeration freezes the reservation accumulator: the
items after the first error are never seen. -/
theorem runResAux_append_err (pre : List Reservation) (post : List ResItem)
    (acc : Int) :
    runResAux acc (pre.map ResItem.res ++ ResItem.err :: post) =
      runResAux acc (pre.map ResItem.res) := by
  induction pre generalizing acc with
  | nil => simp [runResAux]
  | cons r pre ih =>
    by_cases h : resMatches r
    · simp [runResAux, h, ih]
    · simp [runResAux, h, ih]

/-- The default of `getLast?` shifts under `cons`. -/
theorem getLast?_cons_getD {α : Type} (a x : α) (l : List α) :
    ((a :: l).getLast?).getD x = (l.getLast?).getD a := by
  induction l generalizing a x with
  | nil => rfl
  | cons b t ih => rw [List.getLast?_cons_cons, ih, ih]

/-- On an error-free stream, the final `new_deployment_ptus` is the capacity
of the last sku-matching deployment carrying the target name (the initial
accumulator when there is none). -/
theorem runDepsAux_newDep (target : String) (ds : List Deployment)
    (tot nd : Int) :
    ∃ t2, runDepsAux target tot nd (ds.map DepItem.dep) =
      .ok (t2,
        (((ds.filter fun d => depMatches d && d.name == target).map
          depCap).getLast?).getD nd) := by
  induction ds generalizing tot nd with
  | nil => exact ⟨tot, by simp [runDepsAux]⟩
  | cons d ds ih =>
    by_cases h : depMatches d
    · by_cases hn : d.name == target
      · obtain ⟨t2, h2⟩ := ih (tot + depCap d) (depCap d)
        refine ⟨t2, ?_⟩
        rw [List.map_cons, runDepsAux_cons_dep, if_pos h, if_pos hn, h2,
          List.filter_cons_of_pos (by simp [h, hn]), List.map_cons,
          getLast?_cons_getD]
      · obtain ⟨t2, h2⟩ := ih (tot + depCap d) nd
        refine ⟨t2, ?_⟩
        rw [List.map_cons, runDepsAux_cons_dep, if_pos h, if_neg (by simp_all),
          h2, List.filter_cons_of_neg (by simp [hn])]
    · obtain ⟨t2, h2⟩ := ih tot nd
      refine ⟨t2, ?_⟩
      rw [List.map_cons, runDepsAux_cons_dep, if_neg (by simp [h]), h2,
        List.filter_cons_of_neg (by simp [h])]

/-- If every sku-matching capacity in the stream is non-negative and the two
accumulators are, the deployment loop keeps both non-negative. -/
theorem runDepsAux_nonneg (target : String) (ds : List Deployment)
    (h : ∀ d ∈ ds, 0 ≤ depCap d) (tot nd : Int)
    (ht : 0 ≤ tot) (hn : 0 ≤ nd) :
    ∃ t2 nd2, runDepsAux target tot nd (ds.map DepItem.dep) = .ok (t2, nd2) ∧
      0 ≤ t2 ∧ 0 ≤ nd2 := by
  induction ds generalizing tot nd with
  | nil => exact ⟨tot, nd, by simp [runDepsAux], ht, hn⟩
  | cons d ds ih =>
    have hd : 0 ≤ depCap d := h d (List.mem_cons_self d ds)
    have h' : ∀ d' ∈ ds, 0 ≤ depCap d' := fun d' hm => h d' (List.mem_cons_of_mem d hm)
    by_cases hm : depMatches d
    · by_cases hnm : d.name == target
      · obtain ⟨t2, nd2, heq, h1, h2⟩ := ih h' (tot + depCap d) (depCap d) (by omega) hd
        exact ⟨t2, nd2, by rw [List.map_cons, runDepsAux_cons_dep, if_pos hm, if_pos hnm]; exact heq, h1, h2⟩
      · obtain ⟨t2, nd2, heq, h1, h2⟩ := ih h' (tot + depCap d) nd (by omega) hn
        exact ⟨t2, nd2, by rw [List.map_cons, runDepsAux_cons_dep, if_pos hm, if_neg (by simp_all)]; exact heq, h1, h2⟩
    · obtain ⟨t2, nd2, heq, h1, h2⟩ := ih h' tot nd ht hn
      exact ⟨t2, nd2, by rw [List.map_cons, runDepsAux_cons_dep, if_neg (by simp [hm])]; exact heq, h1, h2⟩

/-- If every matching quantity in the stream is non-negative, the reservation
loop keeps its accumulator non-negative. -/
theorem runResAux_nonneg (rs : List Reservation)
    (h : ∀ r ∈ rs, 0 ≤ resQty r) (acc : Int) (ha : 0 ≤ acc) :
    0 ≤ runResAux acc (rs.map ResItem.res) := by
  induction rs generalizing acc with
  | nil => simpa [runResAux] using ha
  | cons r rs ih =>
    have hr : 0 ≤ resQty r := h r (List.mem_cons_self r rs)
    have h' : ∀ r' ∈ rs, 0 ≤ resQty r' := fun r' hm => h r' (List.mem_cons_of_mem r hm)
    by_cases hm : resMatches r
    · simpa [runResAux, hm] using ih h' (acc + resQty r) (by omega)
    · simpa [runResAux, hm] using ih h' acc ha

/-! ## Claim theorems -/

/-- C1: for every pair of totals, classification runs exactly one of three
mutually exclusive cases, checked in order: `reserved == 0` gives "no
reservations"; else `deployed <= reserved` gives "fully covered" with slack
`reserved - deployed`; else (`deployed > reserved`) gives "exceeds
reservations" with excess `deployed - reserved`. -/
theorem classification_trichotomy (d r n : Int) :
    (r = 0 ∧ classify d r n = .noReservations d) ∨
    (r ≠ 0 ∧ d ≤ r ∧ classify d r n = .fullyCovered (r - d)) ∨
    (r ≠ 0 ∧ r < d ∧ classify d r n = .exceeds (d - r) (decide (0 < n))) := by
  by_cases h : r = 0
  · exact Or.inl ⟨h, by simp [classify, h]⟩
  · by_cases h2 : d ≤ r
    · exact Or.inr (Or.inl ⟨h, h2, by simp [classify, h, h2]⟩)
    · exact Or.inr (Or.inr ⟨h, by omega, by simp [classify, h, h2]⟩)

/-- When the credential is obtained and the deployment loop returns, the
checker produces exactly the report built from the two totals. -/
theorem check_ok_of_runDeps (inputs : CheckInputs) (name : String)
    (t nd : Int) (hc : inputs.credFails = false)
    (h : runDepsAux name 0 0 inputs.depItems = .ok (t, nd)) :
    check_ptu_capacity inputs name =
      .ok (some
        { totalDeployed := t
          totalReserved := runRes inputs.resClientFails inputs.resItems
          newDeploymentPtus := nd
          outcome :=
            classify t (runRes inputs.resClientFails inputs.resItems) nd }) := by
  unfold check_ptu_capacity checkBody
  rw [hc, h]
  simp

/-- C2: for every finite list of deployment records, the total deployed
value computed by `check_ptu_capacity` is the sum of the capacities
(missing capacity counted 0) of exactly the deployments whose sku name,
case-insensitively, begins with `'provisioned'`; all others contribute
nothing. -/
theorem totalDeployed_eq_sum_matching (target : String) (ds : List Deployment)
    (rcf : Bool) (ris : List ResItem) :
    ∃ rep,
      check_ptu_capacity ⟨false, ds.map DepItem.dep, rcf, ris⟩ target =
        .ok (some rep) ∧
      rep.totalDeployed = ((ds.filter depMatches).map depCap).sum := by
  obtain ⟨nd2, h⟩ := runDepsAux_pure_total target ds 0 0
  rw [zero_add] at h
  exact ⟨_, check_ok_of_runDeps _ target _ nd2 rfl h, rfl⟩

/-- C3: for every finite list of reservation orders and their reservations,
the total reserved value computed by `check_ptu_capacity` is the sum of the
quantities (missing quantity counted 0) of exactly the reservations whose
sku-description contains `'Provisioned Throughput'`; all others are
excluded. -/
theorem totalReserved_eq_sum_matching (target : String) (ds : List Deployment)
    (orders : List (List Reservation)) :
    ∃ rep,
      check_ptu_capacity
          ⟨false, ds.map DepItem.dep, false, orders.flatten.map ResItem.res⟩
          target =
        .ok (some rep) ∧
      rep.totalReserved =
        ((orders.flatten.filter resMatches).map resQty).sum := by
  obtain ⟨nd2, h⟩ := runDepsAux_pure_total target ds 0 0
  rw [zero_add] at h
  exact ⟨_, check_ok_of_runDeps _ target _ nd2 rfl h,
    by simp only [runRes, Bool.false_eq_true, if_false, runResAux_pure,
      zero_add]⟩

/-- C5: if the reservation enumeration raises mid-way, the exception stays
inside `check_ptu_capacity`, the reserved total is the partial sum
accumulated before the failure, and the classification step still runs on
that partial total. -/
theorem reservation_failure_partial_sum (target : String)
    (ds : List Deployment) (pre : List Reservation) (post : List ResItem) :
    ∃ rep,
      check_ptu_capacity
          ⟨false, ds.map DepItem.dep, false,
            pre.map ResItem.res ++ ResItem.err :: post⟩ target =
        .ok (some rep) ∧
      rep.totalReserved = ((pre.filter resMatches).map resQty).sum ∧
      rep.outcome =
        classify rep.totalDeployed rep.totalReserved rep.newDeploymentPtus := by
  obtain ⟨nd2, h⟩ := runDepsAux_pure_total target ds 0 0
  rw [zero_add] at h
  exact ⟨_, check_ok_of_runDeps _ target _ nd2 rfl h,
    by simp [runRes, runResAux_append_err, runResAux_pure], rfl⟩

/-- C10: `check_ptu_capacity` never raises to its caller: for all observable
worlds (credential failure, enumeration failures included) it returns
normally, its catch-all boundary turning any internal exception into a
logged, report-less return. -/
theorem check_ptu_capacity_total (inputs : CheckInputs) (name : String) :
    ∃ r, check_ptu_capacity inputs name = .ok r := by
  unfold check_ptu_capacity
  cases checkBody inputs name with
  | ok r => exact ⟨some r, rfl⟩
  | error e => exact ⟨none, rfl⟩

/-- C4 counterexample: the code tests `'deployments/write' in operation_name`
by substring containment, not equality, so a realistic event whose
operation-name merely contains the marker does reach the capacity checker. -/
theorem checker_invoked_opname_not_equal_marker :
    opName evFullOpName ≠ "deployments/write" ∧
    (ptu_ri_alert_function evFullOpName quietInputs).invokedChecker = true := by
  exact ⟨by decide, by rfl⟩

/-- C4 (amended): for every event whose subject does not contain the
resource-type marker, or whose operation-name does not contain the
deployment-write marker, the checker is never invoked and the handler logs
the skip and returns the success result. -/
theorem skipped_when_filter_fails (e : Event) (inputs : CheckInputs)
    (h : strContains e.subject "Microsoft.CognitiveServices/accounts" = false ∨
      strContains (opName e) "deployments/write" = false) :
    (ptu_ri_alert_function e inputs).invokedChecker = false ∧
    (ptu_ri_alert_function e inputs).skippedLogged = true ∧
    (ptu_ri_alert_function e inputs).result = successResult e := by
  have hf : deploymentFilter e = false := by
    unfold deploymentFilter
    rcases h with h | h <;> simp [h]
  unfold ptu_ri_alert_function
  rw [hf]
  exact ⟨rfl, rfl, rfl⟩

/-- Witness for C4 (amended), on an event whose operation name defaults to
`'N/A'`. -/
theorem skipped_when_filter_fails_witness :
    (ptu_ri_alert_function ⟨"e1", "t", "other/subject", none⟩
      quietInputs).invokedChecker = false ∧
    (ptu_ri_alert_function ⟨"e1", "t", "other/subject", none⟩
      quietInputs).skippedLogged = true ∧
    (ptu_ri_alert_function ⟨"e1", "t", "other/subject", none⟩
      quietInputs).result = successResult ⟨"e1", "t", "other/subject", none⟩ :=
  skipped_when_filter_fails _ _ (Or.inr (by decide))

/-- C6: every event passing the deployment filter gets the fixed-shape
success result, for every behaviour of the outside world — in particular
when subject parsing or the capacity checker raises, the exception is
swallowed and the return value is still success-shaped. -/
theorem handler_always_success (e : Event) (inputs : CheckInputs)
    (h : deploymentFilter e = true) :
    (ptu_ri_alert_function e inputs).result = successResult e ∧
    (ptu_ri_alert_function e inputs).result.status = "success" := by
  unfold ptu_ri_alert_function
  rw [h, if_pos rfl]
  split
  · exact ⟨rfl, rfl⟩
  · split
    · exact ⟨rfl, rfl⟩
    · exact ⟨rfl, rfl⟩

/-- Witness for C6, on an event whose subject is too short to parse (the
handler's except branch runs) and a world where the credential also fails. -/
theorem handler_always_success_witness :
    deploymentFilter evShortSubject = true ∧
    (ptu_ri_alert_function evShortSubject
      ⟨true, [], false, []⟩).result = successResult evShortSubject ∧
    (ptu_ri_alert_function evShortSubject
      ⟨true, [], false, []⟩).result.status = "success" :=
  ⟨by decide, handler_always_success evShortSubject ⟨true, [], false, []⟩ (by decide)⟩

/-- C7 counterexample: an event passing the deployment filter whose subject
splits into only 2 segments makes the parsing raise an index error (at
index 2) instead of yielding the `'unknown'` sentinel. -/
theorem short_subject_parse_raises :
    deploymentFilter evShortSubject = true ∧
    (pySplitStr evShortSubject.subject '/').length < 11 ∧
    parseSubject evShortSubject.subject = .error Exn.indexError := by
  exact ⟨by decide, by decide, by rfl⟩

/-- C7 (amended): when the subject splits into at least 9 but fewer than 11
segments, parsing succeeds, takes subscription id, resource group and
account name from indices 2, 4 and 8, and defaults the deployment name to
the `'unknown'` sentinel instead of raising. -/
theorem parse_deployment_defaults_unknown (s : String)
    (h9 : 9 ≤ (pySplitStr s '/').length)
    (h11 : (pySplitStr s '/').length < 11) :
    ∃ sub rg acct,
      (pySplitStr s '/')[2]? = some sub ∧
      (pySplitStr s '/')[4]? = some rg ∧
      (pySplitStr s '/')[8]? = some acct ∧
      parseSubject s = .ok (sub, rg, acct, "unknown") := by
  obtain ⟨sub, h2⟩ : ∃ x, (pySplitStr s '/')[2]? = some x :=
    ⟨_, List.getElem?_eq_getElem (by omega)⟩
  obtain ⟨rg, h4⟩ : ∃ x, (pySplitStr s '/')[4]? = some x :=
    ⟨_, List.getElem?_eq_getElem (by omega)⟩
  obtain ⟨acct, h8⟩ : ∃ x, (pySplitStr s '/')[8]? = some x :=
    ⟨_, List.getElem?_eq_getElem (by omega)⟩
  have h10 : (pySplitStr s '/')[10]? = none :=
    List.getElem?_eq_none (by omega)
  refine ⟨sub, rg, acct, h2, h4, h8, ?_⟩
  unfold parseSubject
  simp only [h2, h4, h8, h10, Option.getD_none]

/-- Witness for C7 (amended): a 9-segment subject. -/
theorem parse_deployment_defaults_unknown_witness :
    (9 ≤ (pySplitStr "/subscriptions/s1/resourceGroups/g1/providers/Microsoft.CognitiveServices/accounts/a1" '/').length ∧
      (pySplitStr "/subscriptions/s1/resourceGroups/g1/providers/Microsoft.CognitiveServices/accounts/a1" '/').length < 11) ∧
    ∃ sub rg acct,
      (pySplitStr "/subscriptions/s1/resourceGroups/g1/providers/Microsoft.CognitiveServices/accounts/a1" '/')[2]? = some sub ∧
      (pySplitStr "/subscriptions/s1/resourceGroups/g1/providers/Microsoft.CognitiveServices/accounts/a1" '/')[4]? = some rg ∧
      (pySplitStr "/subscriptions/s1/resourceGroups/g1/providers/Microsoft.CognitiveServices/accounts/a1" '/')[8]? = some acct ∧
      parseSubject "/subscriptions/s1/resourceGroups/g1/providers/Microsoft.CognitiveServices/accounts/a1" =
        .ok (sub, rg, acct, "unknown") :=
  ⟨⟨by decide, by decide⟩,
    parse_deployment_defaults_unknown _ (by decide) (by decide)⟩

/-- C8 counterexample: the name comparison sits inside the provisioned-sku
branch, so a deployment named exactly like the target but carrying a
non-provisioned sku is not recorded: its own capacity is 7, yet
`new_deployment_ptus` stays 0. -/
theorem name_match_needs_sku_filter :
    depStandardTarget.name = "gpt4" ∧
    depCap depStandardTarget = 7 ∧
    runDepsAux "gpt4" 0 0 [DepItem.dep depStandardTarget] = .ok (0, 0) ∧
    (0 : Int) ≠ 7 := by
  exact ⟨rfl, rfl, rfl, by decide⟩

/-- C8 (amended): during deployment enumeration, for every deployment that
passes the provisioned-sku filter and whose name equals the target
deployment name, the checker records that deployment's capacity as the
new-deployment capacity (the last such deployment's capacity when several
match, 0 when none does); and in the exceeding case it flags the new
deployment exactly when that recorded capacity is positive. -/
theorem new_deployment_capacity_recorded (target : String)
    (ds : List Deployment) (r : Int) (hr : r ≠ 0) :
    ∃ tot,
      runDepsAux target 0 0 (ds.map DepItem.dep) =
        .ok (tot,
          (((ds.filter fun d => depMatches d && d.name == target).map
            depCap).getLast?).getD 0) ∧
      (r < tot →
        classify tot r
            ((((ds.filter fun d => depMatches d && d.name == target).map
              depCap).getLast?).getD 0) =
          .exceeds (tot - r)
            (decide (0 <
              (((ds.filter fun d => depMatches d && d.name == target).map
                depCap).getLast?).getD 0))) := by
  obtain ⟨t2, h⟩ := runDepsAux_newDep target ds 0 0
  refine ⟨t2, h, fun hlt => ?_⟩
  unfold classify
  rw [if_neg hr, if_neg (by omega)]

/-- Witness for C8 (amended), on the spec's worked example with reserved
total 10 (exceeded by the deployed total 35). -/
theorem new_deployment_capacity_recorded_witness :
    (10 : Int) ≠ 0 ∧
    ∃ tot,
      runDepsAux "d2" 0 0 (depListExample.map DepItem.dep) =
        .ok (tot,
          (((depListExample.filter fun d => depMatches d && d.name == "d2").map
            depCap).getLast?).getD 0) ∧
      ((10 : Int) < tot →
        classify tot 10
            ((((depListExample.filter fun d => depMatches d && d.name == "d2").map
              depCap).getLast?).getD 0) =
          .exceeds (tot - 10)
            (decide (0 <
              (((depListExample.filter fun d => depMatches d && d.name == "d2").map
                depCap).getLast?).getD 0))) :=
  ⟨by decide, new_deployment_capacity_recorded "d2" depListExample 10 (by decide)⟩

/-- C9: when every capacity and quantity field of the input records is
missing or non-negative, the running totals (total deployed, the recorded
new-deployment capacity, and total reserved) are non-negative after every
prefix of the two enumerations, missing fields contributing zero. -/
theorem accumulators_nonneg (target : String) (ds : List Deployment)
    (rs : List Reservation)
    (hd : ∀ d ∈ ds, ∀ s, d.sku = some s → ∀ c, s.capacity = some c → 0 ≤ c)
    (hq : ∀ r ∈ rs, ∀ q, r.quantity = some q → 0 ≤ q) (n : Nat) :
    (∃ t nd, runDepsAux target 0 0 ((ds.take n).map DepItem.dep) = .ok (t, nd) ∧
      0 ≤ t ∧ 0 ≤ nd) ∧
    0 ≤ runResAux 0 ((rs.take n).map ResItem.res) := by
  have hd' : ∀ d ∈ ds.take n, 0 ≤ depCap d := by
    intro d hm
    have hmem : d ∈ ds := List.take_subset n ds hm
    cases hsku : d.sku with
    | none => simp [depCap, hsku]
    | some s =>
      cases hcap : s.capacity with
      | none => simp [depCap, hsku, hcap]
      | some c => simpa [depCap, hsku, hcap] using hd d hmem s hsku c hcap
  have hq' : ∀ r ∈ rs.take n, 0 ≤ resQty r := by
    intro r hm
    have hmem : r ∈ rs := List.take_subset n rs hm
    cases hquo : r.quantity with
    | none => simp [resQty, hquo]
    | some q => simpa [resQty, hquo] using hq r hmem q hquo
  exact ⟨runDepsAux_nonneg target _ hd' 0 0 le_rfl le_rfl,
    runResAux_nonneg _ hq' 0 le_rfl⟩

/-- Witness for C9, on a provisioned deployment of capacity 3 and a PTU
reservation of quantity 100, after one step of each loop. -/
theorem accumulators_nonneg_witness :
    (∃ t nd,
      runDepsAux "d1" 0 0 ((depListSmall.take 1).map DepItem.dep) = .ok (t, nd) ∧
      0 ≤ t ∧ 0 ≤ nd) ∧
    0 ≤ runResAux 0 ((resListSmall.take 1).map ResItem.res) :=
  accumulators_nonneg "d1" depListSmall resListSmall
    (by
      intro d hm s hs c hc
      simp only [depListSmall, List.mem_singleton] at hm
      subst hm
      cases hs
      cases hc
      decide)
    (by
      intro r hm q hquo
      simp only [resListSmall, List.mem_singleton] at hm
      subst hm
      cases hquo
      decide)
    1
